import Mathlib

/-! # lb4.cpp: Flyweight, Adapter, Bridge and Facade demos

A shallow embedding of `src/lb4.cpp`.

* Standard output is the field `cout` of `World`; every `cout << a << b` is a sequence of
  `World.write` calls, in source order.
* Objects created with `new` live in `World.heap`; a pointer is `Ptr.null` or an address into
  that heap, and a member call through a pointer that does not reference a live object of the
  right class has no defined result (`none`).
* `int` arguments are `Int`, printed in decimal by `toString`; `double` is an abstract type `D`
  whose conversion from `int` and whose text form come from `DoubleOps` (the C++ library, which
  is not part of the repository).
* Every call of `system(...)` is recorded in `World.sys`, in call order, with the command and
  the text that had been written to `cout` when the call was made.
-/

namespace Lb4

/-! ## Data model -/

/-- Pointer value: `null` is `nullptr`, `addr a` references heap cell `a`. -/
inductive Ptr where
  | null
  | addr (a : Nat)
  deriving DecidableEq, Repr

/-- Library operations on `double` used by the program: the implicit conversion `int → double`
and the text that `operator<<(ostream&, double)` writes. -/
structure DoubleOps (D : Type) where
  ofInt : Int → D
  toText : D → String

/-- Heap objects, one constructor per class instantiated with `new`, holding the class's data
members (`Circle::color`, `PrinterAdapter::oldPrinter`, `CircleShape::{x, y, radius}` and the
inherited `ShapeBridge::drawingAPI`). -/
inductive Obj (D : Type) where
  | Circle (color : String)
  | OldPrinter
  | PrinterAdapter (oldPrinter : Ptr)
  | DrawingAPI1
  | DrawingAPI2
  | CircleShape (x y radius : D) (drawingAPI : Ptr)
  deriving DecidableEq

/-- One call of `system`: the command, and the text written to `cout` before the call. -/
structure SysCall where
  cmd : String
  coutBefore : String
  deriving DecidableEq

/-- Program state: text written to `cout`, the heap (`none` marks a deleted cell) and the
calls of `system` made so far. -/
structure World (D : Type) where
  cout : String
  heap : List (Option (Obj D))
  sys : List SysCall

/-- State at program start: nothing written, nothing allocated, no command run. -/
def World.init {D : Type} : World D :=
  { cout := "", heap := [], sys := [] }

/-- One `cout << s`. -/
def World.write {D : Type} (w : World D) (s : String) : World D :=
  { w with cout := w.cout ++ s }

/-- The expression `new T(...)`: the object goes into a fresh cell, whose address is returned. -/
def World.opNew {D : Type} (w : World D) (o : Obj D) : Ptr × World D :=
  (Ptr.addr w.heap.length, { w with heap := w.heap ++ [some o] })

/-- The object a pointer references, if it references a live one. -/
def World.deref {D : Type} (w : World D) : Ptr → Option (Obj D)
  | Ptr.null => none
  | Ptr.addr a => (w.heap[a]?).join

/-- The statement `delete p;`: nothing for `nullptr`, frees a live cell, undefined otherwise.
All destructors reached this way in the program are the defaulted ones. -/
def World.opDelete {D : Type} (w : World D) : Ptr → Option (World D)
  | Ptr.null => some w
  | Ptr.addr a =>
    match w.heap[a]? with
    | some (some _) => some { w with heap := w.heap.set a none }
    | _ => none

/-- The call `system(cmd)`; its result is discarded by the program. -/
def World.system {D : Type} (w : World D) (cmd : String) : World D :=
  { w with sys := w.sys ++ [{ cmd := cmd, coutBefore := w.cout }] }

/-- Number of line terminators in a text. -/
def lineCount (s : String) : Nat :=
  s.data.count '\n'

/-- The lines of a text: the runs of characters ended by a line terminator, in order (what
follows the last terminator is not a line). -/
def terminatedLines (s : String) : List String :=
  ((s.data.splitOn '\n').dropLast).map String.mk

/-! ## Flyweight -/

/-- `Circle::draw(int x, int y)` called through `this`. -/
def Circle.draw {D : Type} (this : Ptr) (x y : Int) (w : World D) : Option (World D) :=
  match w.deref this with
  | some (Obj.Circle color) =>
    some (((((((w.write "Circle color: ").write color).write ", at (").write
      (toString x)).write ", ").write (toString y)).write ")\n")
  | _ => none

/-- Virtual call `Shape::draw(x, y)` through a `Shape*`; `Circle` is the only override. -/
def Shape.draw {D : Type} (this : Ptr) (x y : Int) (w : World D) : Option (World D) :=
  Circle.draw this x y w

/-- `std::map<string, Shape*>::find(k)`: `none` stands for `end()`. The entries are kept as an
association list with unique keys; their order is not observable through the operations used. -/
def mapFind : List (String × Ptr) → String → Option Ptr
  | [], _ => none
  | (k', v) :: t, k => if k' = k then some v else mapFind t k

/-- Assignment through `operator[]`, `m[k] = v`: overwrite the entry of `k` or add one. -/
def mapSet : List (String × Ptr) → String → Ptr → List (String × Ptr)
  | [], k, v => [(k, v)]
  | (k', v') :: t, k, v => if k' = k then (k, v) :: t else (k', v') :: mapSet t k v

/-- Read through `operator[]`, `m[k]`: the mapped value, after adding a `nullptr` entry when
`k` has none. -/
def mapIndex (m : List (String × Ptr)) (k : String) : Ptr × List (String × Ptr) :=
  match mapFind m k with
  | some v => (v, m)
  | none => (Ptr.null, mapSet m k Ptr.null)

/-- `ShapeFactory`: its one data member, the map `shapes`. -/
structure ShapeFactory where
  shapes : List (String × Ptr)
  deriving DecidableEq

/-- A freshly constructed `ShapeFactory` (empty map). -/
def ShapeFactory.fresh : ShapeFactory :=
  { shapes := [] }

/-- `ShapeFactory::getCircle(color)`: returns the pointer and the updated factory and world. -/
def ShapeFactory.getCircle {D : Type} (f : ShapeFactory) (color : String) (w : World D) :
    Ptr × ShapeFactory × World D :=
  let fw : ShapeFactory × World D :=
    if mapFind f.shapes color = none then
      let pw := w.opNew (Obj.Circle color)
      ({ shapes := mapSet f.shapes color pw.1 }, pw.2)
    else (f, w)
  let r := mapIndex fw.1.shapes color
  (r.1, { shapes := r.2 }, fw.2)

/-- `ShapeFactory::~ShapeFactory()`: `delete` every mapped pointer. -/
def ShapeFactory.destroy {D : Type} (f : ShapeFactory) (w : World D) : Option (World D) :=
  f.shapes.foldlM (fun acc kv => acc.opDelete kv.2) w

/-- A run of `getCircle` calls (results discarded), one per key, in order. -/
def ShapeFactory.getCircles {D : Type} (f : ShapeFactory) (ks : List String) (w : World D) :
    ShapeFactory × World D :=
  ks.foldl (fun s k => (s.1.getCircle k s.2).2) (f, w)

/-- Cache invariant: the entry of every key `c` references a live `Circle` of colour `c`. -/
def CacheInv {D : Type} (f : ShapeFactory) (w : World D) : Prop :=
  ∀ c p, mapFind f.shapes c = some p → w.deref p = some (Obj.Circle c)

/-! ## Adapter -/

/-- `OldPrinter::oldPrint()` called through `this`. -/
def OldPrinter.oldPrint {D : Type} (this : Ptr) (w : World D) : Option (World D) :=
  match w.deref this with
  | some Obj.OldPrinter => some (w.write "Old printer is printing...\n")
  | _ => none

/-- `PrinterAdapter::print()` called through `this`: `oldPrinter->oldPrint()`. -/
def PrinterAdapter.print {D : Type} (this : Ptr) (w : World D) : Option (World D) :=
  match w.deref this with
  | some (Obj.PrinterAdapter oldPrinter) => OldPrinter.oldPrint oldPrinter w
  | _ => none

/-- Virtual call `IPrinter::print()` through an `IPrinter*`; `PrinterAdapter` is the only
override. -/
def IPrinter.print {D : Type} (this : Ptr) (w : World D) : Option (World D) :=
  PrinterAdapter.print this w

/-! ## Bridge -/

/-- `DrawingAPI1::drawCircle(x, y, radius)`. -/
def DrawingAPI1.drawCircle {D : Type} (fmt : DoubleOps D) (x y radius : D) (w : World D) :
    World D :=
  ((((((w.write "API1.circle at (").write (fmt.toText x)).write ", ").write
    (fmt.toText y)).write ") radius: ").write (fmt.toText radius)).write "\n"

/-- `DrawingAPI2::drawCircle(x, y, radius)`. -/
def DrawingAPI2.drawCircle {D : Type} (fmt : DoubleOps D) (x y radius : D) (w : World D) :
    World D :=
  ((((((w.write "API2.circle at (").write (fmt.toText x)).write ", ").write
    (fmt.toText y)).write ") radius: ").write (fmt.toText radius)).write "\n"

/-- Virtual call `DrawingAPI::drawCircle(x, y, radius)` through a `DrawingAPI*`, dispatched on
the class of the referenced object. -/
def DrawingAPI.drawCircle {D : Type} (fmt : DoubleOps D) (this : Ptr) (x y radius : D)
    (w : World D) : Option (World D) :=
  match w.deref this with
  | some Obj.DrawingAPI1 => some (DrawingAPI1.drawCircle fmt x y radius w)
  | some Obj.DrawingAPI2 => some (DrawingAPI2.drawCircle fmt x y radius w)
  | _ => none

/-- `CircleShape::draw()` called through `this`: `drawingAPI->drawCircle(x, y, radius)`. -/
def CircleShape.draw {D : Type} (fmt : DoubleOps D) (this : Ptr) (w : World D) :
    Option (World D) :=
  match w.deref this with
  | some (Obj.CircleShape x y radius drawingAPI) =>
    DrawingAPI.drawCircle fmt drawingAPI x y radius w
  | _ => none

/-- Virtual call `ShapeBridge::draw()` through a `ShapeBridge*`; `CircleShape` is the only
override. -/
def ShapeBridge.draw {D : Type} (fmt : DoubleOps D) (this : Ptr) (w : World D) :
    Option (World D) :=
  CircleShape.draw fmt this w

/-! ## Facade -/

/-- Class `CPU` (no data members). -/
structure CPU where
  deriving DecidableEq

/-- Class `Memory` (no data members). -/
structure Memory where
  deriving DecidableEq

/-- Class `HardDrive` (no data members). -/
structure HardDrive where
  deriving DecidableEq

/-- `CPU::start()`. -/
def CPU.start {D : Type} (_ : CPU) (w : World D) : World D :=
  w.write "CPU started\n"

/-- `Memory::load()`. -/
def Memory.load {D : Type} (_ : Memory) (w : World D) : World D :=
  w.write "Memory loaded\n"

/-- `HardDrive::read()`. -/
def HardDrive.read {D : Type} (_ : HardDrive) (w : World D) : World D :=
  w.write "Hard Drive read\n"

/-- Class `ComputerFacade`: the three subsystems, held by value. -/
structure ComputerFacade where
  cpu : CPU
  memory : Memory
  hardDrive : HardDrive
  deriving DecidableEq

/-- `ComputerFacade::startComputer()`. -/
def ComputerFacade.startComputer {D : Type} (c : ComputerFacade) (w : World D) : World D :=
  let w1 := c.cpu.start w
  let w2 := c.memory.load w1
  c.hardDrive.read w2

/-! ## Entry point -/

/-- The function `main()`: the returned number is the exit code; `none` would be a run that
calls through, or deletes, a pointer to no live object. The one local whose destructor does
something, `shapeFactory`, is destroyed when the function returns. -/
def main {D : Type} (fmt : DoubleOps D) (w0 : World D) : Option (Int × World D) := do
  let w := w0.write "==== FLYWEIGHT ====\n"
  let shapeFactory := ShapeFactory.fresh
  let (redCircle, shapeFactory, w) := shapeFactory.getCircle "Red" w
  let w ← Shape.draw redCircle 10 20 w
  let (anotherRedCircle, shapeFactory, w) := shapeFactory.getCircle "Red" w
  let w ← Shape.draw anotherRedCircle 30 40 w
  let w := w.write "\n==== ADAPTER ====\n"
  let (old, w) := w.opNew Obj.OldPrinter
  let (adapter, w) := w.opNew (Obj.PrinterAdapter old)
  let w ← IPrinter.print adapter w
  let w ← w.opDelete adapter
  let w ← w.opDelete old
  let w := w.write "\n==== BRIDGE ====\n"
  let (api1, w) := w.opNew Obj.DrawingAPI1
  let (circle1, w) := w.opNew (Obj.CircleShape (fmt.ofInt 5) (fmt.ofInt 10) (fmt.ofInt 15) api1)
  let (api2, w) := w.opNew Obj.DrawingAPI2
  let (circle2, w) := w.opNew (Obj.CircleShape (fmt.ofInt 7) (fmt.ofInt 14) (fmt.ofInt 21) api2)
  let w ← ShapeBridge.draw fmt circle1 w
  let w ← ShapeBridge.draw fmt circle2 w
  let w ← w.opDelete circle1
  let w ← w.opDelete circle2
  let w := w.write "\n==== FACADE ====\n"
  let computer : ComputerFacade := { cpu := {}, memory := {}, hardDrive := {} }
  let w := computer.startComputer w
  let w := w.write "\nPress any key to exit...\n"
  let w := w.system "pause"
  let w ← shapeFactory.destroy w
  return (0, w)

/-- Decimal text for the integer-valued doubles: the instance used to run `main`. -/
def intDoubles : DoubleOps Int :=
  { ofInt := fun n => n, toText := fun d => toString d }

/-! ## Basic facts about the state operations -/

section Basics

variable {D : Type}

@[simp] theorem write_cout (w : World D) (s : String) : (w.write s).cout = w.cout ++ s := rfl

@[simp] theorem write_heap (w : World D) (s : String) : (w.write s).heap = w.heap := rfl

@[simp] theorem write_sys (w : World D) (s : String) : (w.write s).sys = w.sys := rfl

@[simp] theorem write_deref (w : World D) (s : String) (p : Ptr) :
    (w.write s).deref p = w.deref p := by
  cases p <;> rfl

theorem deref_lt {w : World D} {a : Nat} {o : Obj D} (h : w.deref (Ptr.addr a) = some o) :
    a < w.heap.length := by
  by_contra hlt
  have hnone : w.heap[a]? = none := List.getElem?_eq_none (Nat.le_of_not_lt hlt)
  simp [World.deref, hnone] at h

/-- Cells that are live stay as they are when `new` adds a cell. -/
theorem deref_opNew_old {w : World D} {p : Ptr} {o : Obj D} (o' : Obj D)
    (h : w.deref p = some o) : (w.opNew o').2.deref p = some o := by
  cases p with
  | null => simp [World.deref] at h
  | addr a =>
    have hlt := deref_lt h
    simp only [World.deref, World.opNew] at h ⊢
    rw [List.getElem?_append_left hlt]
    exact h

/-- The pointer returned by `new` references the object just built. -/
theorem deref_opNew_new (w : World D) (o : Obj D) :
    (w.opNew o).2.deref (w.opNew o).1 = some o := by
  simp [World.deref, World.opNew]

theorem mapFind_mapSet (m : List (String × Ptr)) (k : String) (v : Ptr) (k' : String) :
    mapFind (mapSet m k v) k' = if k = k' then some v else mapFind m k' := by
  induction m with
  | nil => simp [mapSet, mapFind]
  | cons e t ih =>
    obtain ⟨a, b⟩ := e
    by_cases hak : a = k
    · subst hak
      by_cases hk : a = k' <;> simp [mapSet, mapFind, hk]
    · by_cases hk : k = k'
      · subst hk
        simp [mapSet, mapFind, hak, ih]
      · by_cases hak' : a = k'
        · subst hak'
          simp [mapSet, mapFind, hak, hk]
        · simp [mapSet, mapFind, hak, hak', hk, ih]

theorem mapFind_eq_none_iff (m : List (String × Ptr)) (k : String) :
    mapFind m k = none ↔ k ∉ m.map Prod.fst := by
  induction m with
  | nil => simp [mapFind]
  | cons e t ih =>
    obtain ⟨a, b⟩ := e
    by_cases hak : a = k
    · simp [mapFind, hak]
    · have hka : ¬ k = a := fun h => hak h.symm
      simp [mapFind, hak, hka, ih]

theorem mapSet_keys_of_absent (m : List (String × Ptr)) (k : String) (v : Ptr)
    (h : k ∉ m.map Prod.fst) : (mapSet m k v).map Prod.fst = m.map Prod.fst ++ [k] := by
  induction m with
  | nil => simp [mapSet]
  | cons e t ih =>
    obtain ⟨a, b⟩ := e
    simp only [List.map_cons, List.mem_cons, not_or] at h
    have hak : ¬ a = k := fun h' => h.1 h'.symm
    simp [mapSet, hak, ih h.2]

/-- `getCircle` on a key that has an entry: the mapped pointer, nothing changes. -/
theorem getCircle_hit {f : ShapeFactory} {k : String} {p : Ptr} (w : World D)
    (h : mapFind f.shapes k = some p) : f.getCircle k w = (p, f, w) := by
  simp [ShapeFactory.getCircle, h, mapIndex]

/-- `getCircle` on a key that has no entry: one `Circle` is built and mapped to the key. -/
theorem getCircle_miss {f : ShapeFactory} {k : String} (w : World D)
    (h : mapFind f.shapes k = none) :
    f.getCircle k w =
      (Ptr.addr w.heap.length, { shapes := mapSet f.shapes k (Ptr.addr w.heap.length) },
        (w.opNew (Obj.Circle k)).2) := by
  simp [ShapeFactory.getCircle, h, mapIndex, mapFind_mapSet, World.opNew]

/-- After `getCircle k` the key `k` is mapped to the returned pointer. -/
theorem getCircle_find_self (f : ShapeFactory) (k : String) (w : World D) :
    mapFind (f.getCircle k w).2.1.shapes k = some (f.getCircle k w).1 := by
  cases h : mapFind f.shapes k with
  | none => simp [getCircle_miss w h, mapFind_mapSet]
  | some p => simp [getCircle_hit w h, h]

/-- Entries of other keys are not touched by `getCircle k`. -/
theorem getCircle_find_other (f : ShapeFactory) (k : String) (w : World D) {k' : String}
    (hne : k' ≠ k) : mapFind (f.getCircle k w).2.1.shapes k' = mapFind f.shapes k' := by
  have hne' : ¬ k = k' := fun h => hne h.symm
  cases h : mapFind f.shapes k with
  | none => simp [getCircle_miss w h, mapFind_mapSet, hne']
  | some p => simp [getCircle_hit w h]

/-- Live objects stay as they are across `getCircle`. -/
theorem getCircle_deref_keep (f : ShapeFactory) (k : String) (w : World D) {p : Ptr}
    {o : Obj D} (h : w.deref p = some o) : (f.getCircle k w).2.2.deref p = some o := by
  cases hf : mapFind f.shapes k with
  | none =>
    rw [getCircle_miss w hf]
    exact deref_opNew_old _ h
  | some q =>
    rw [getCircle_hit w hf]
    exact h

theorem cacheInv_fresh (w : World D) : CacheInv ShapeFactory.fresh w := by
  intro c p h
  simp [ShapeFactory.fresh, mapFind] at h

theorem cacheInv_getCircle {f : ShapeFactory} {w : World D} (k : String)
    (hinv : CacheInv f w) : CacheInv (f.getCircle k w).2.1 (f.getCircle k w).2.2 := by
  intro c p hc
  cases hf : mapFind f.shapes k with
  | none =>
    rw [getCircle_miss w hf] at hc ⊢
    simp only [mapFind_mapSet] at hc
    by_cases hkc : k = c
    · subst hkc
      simp only [if_true, Option.some.injEq] at hc
      subst hc
      exact deref_opNew_new w (Obj.Circle k)
    · simp only [hkc, if_false] at hc
      exact deref_opNew_old _ (hinv c p hc)
  | some q =>
    rw [getCircle_hit w hf] at hc ⊢
    exact hinv c p hc

theorem getCircles_nil (f : ShapeFactory) (w : World D) : f.getCircles [] w = (f, w) := rfl

theorem getCircles_cons (f : ShapeFactory) (k : String) (ks : List String) (w : World D) :
    f.getCircles (k :: ks) w = (f.getCircle k w).2.1.getCircles ks (f.getCircle k w).2.2 := rfl

theorem cacheInv_getCircles {f : ShapeFactory} {w : World D} (ks : List String)
    (hinv : CacheInv f w) : CacheInv (f.getCircles ks w).1 (f.getCircles ks w).2 := by
  induction ks generalizing f w with
  | nil => exact hinv
  | cons k ks ih =>
    rw [getCircles_cons]
    exact ih (cacheInv_getCircle k hinv)

theorem getCircle_keys (f : ShapeFactory) (k : String) (w : World D) :
    (f.getCircle k w).2.1.shapes.map Prod.fst =
      if k ∈ f.shapes.map Prod.fst then f.shapes.map Prod.fst
      else f.shapes.map Prod.fst ++ [k] := by
  cases h : mapFind f.shapes k with
  | none =>
    have hk : k ∉ f.shapes.map Prod.fst := (mapFind_eq_none_iff _ _).1 h
    rw [getCircle_miss w h, if_neg hk]
    exact mapSet_keys_of_absent _ _ _ hk
  | some p =>
    have hk : k ∈ f.shapes.map Prod.fst := by
      by_contra hk
      rw [(mapFind_eq_none_iff _ _).2 hk] at h
      exact Option.noConfusion h
    rw [getCircle_hit w h, if_pos hk]

theorem getCircle_keys_nodup (f : ShapeFactory) (k : String) (w : World D)
    (h : (f.shapes.map Prod.fst).Nodup) : ((f.getCircle k w).2.1.shapes.map Prod.fst).Nodup := by
  rw [getCircle_keys]
  split
  · exact h
  · rename_i hk
    exact List.Nodup.append h (List.nodup_singleton k) (by simpa using hk)

theorem getCircle_keys_mem (f : ShapeFactory) (k : String) (w : World D) (x : String) :
    x ∈ (f.getCircle k w).2.1.shapes.map Prod.fst ↔ x ∈ f.shapes.map Prod.fst ∨ x = k := by
  rw [getCircle_keys]
  split
  · rename_i hk
    constructor
    · exact Or.inl
    · rintro (h | h)
      · exact h
      · exact h ▸ hk
  · simp

theorem getCircles_keys_nodup {f : ShapeFactory} {w : World D} (ks : List String)
    (h : (f.shapes.map Prod.fst).Nodup) :
    ((f.getCircles ks w).1.shapes.map Prod.fst).Nodup := by
  induction ks generalizing f w with
  | nil => exact h
  | cons k ks ih =>
    rw [getCircles_cons]
    exact ih (getCircle_keys_nodup f k w h)

theorem getCircles_keys_mem (f : ShapeFactory) (w : World D) (ks : List String) (x : String) :
    x ∈ (f.getCircles ks w).1.shapes.map Prod.fst ↔ x ∈ f.shapes.map Prod.fst ∨ x ∈ ks := by
  induction ks generalizing f w with
  | nil => simp [getCircles_nil]
  | cons k ks ih =>
    rw [getCircles_cons, ih, getCircle_keys_mem]
    simp [or_assoc]

/-- With unique keys, an entry of the list is what `find` returns for its key. -/
theorem mapFind_of_mem {m : List (String × Ptr)} {c : String} {p : Ptr}
    (hnd : (m.map Prod.fst).Nodup) (hmem : (c, p) ∈ m) : mapFind m c = some p := by
  induction m with
  | nil => simp at hmem
  | cons e t ih =>
    obtain ⟨a, b⟩ := e
    simp only [List.map_cons, List.nodup_cons] at hnd
    rcases List.mem_cons.1 hmem with h | h
    · cases h
      simp [mapFind]
    · have hne : ¬ a = c := by
        intro hac
        subst hac
        exact hnd.1 (List.mem_map.2 ⟨(a, p), h, rfl⟩)
      simp [mapFind, hne, ih hnd.2 h]

/-- The characters of the decimal text of a natural number are digit characters. -/
theorem toDigitsCore_no_newline (fuel n : Nat) (ds : List Char) (h : '\n' ∉ ds) :
    '\n' ∉ Nat.toDigitsCore 10 fuel n ds := by
  induction fuel generalizing n ds with
  | zero => simpa [Nat.toDigitsCore] using h
  | succ fuel ih =>
    have hd : ∀ m, m < 10 → ¬ '\n' = Nat.digitChar m := by decide
    have hcons : '\n' ∉ Nat.digitChar (n % 10) :: ds := by
      simp only [List.mem_cons, not_or]
      exact ⟨hd _ (Nat.mod_lt _ (by decide)), h⟩
    simp only [Nat.toDigitsCore]
    split
    · exact hcons
    · exact ih _ _ hcons

theorem nat_toString_no_newline (n : Nat) : '\n' ∉ (toString n).data := by
  show '\n' ∉ (Nat.repr n).data
  simp only [Nat.repr, Nat.toDigits, List.asString]
  exact toDigitsCore_no_newline _ _ _ (by simp)

theorem int_toString_no_newline (x : Int) : '\n' ∉ (toString x).data := by
  cases x with
  | ofNat m => exact nat_toString_no_newline m
  | negSucc m =>
    show '\n' ∉ ("-" ++ toString (Nat.succ m)).data
    rw [String.data_append, List.mem_append, not_or]
    exact ⟨by decide, nat_toString_no_newline _⟩

theorem lineCount_append (s t : String) : lineCount (s ++ t) = lineCount s + lineCount t := by
  simp [lineCount, String.data_append]

theorem lineCount_eq_zero {s : String} (h : '\n' ∉ s.data) : lineCount s = 0 := by
  simpa [lineCount] using List.count_eq_zero_of_not_mem h

end Basics

/-! ## Flyweight: the shared-instance cache -/

section Flyweight

variable {D : Type}

/-- C3: after `getCircle` on each key of a list, in order, on a fresh factory, the map has as
many entries as the list has distinct keys; that is fewer than the number of calls whenever a
key repeats. -/
theorem getCircles_size_eq_distinct (w0 : World D) (ks : List String) :
    (ShapeFactory.fresh.getCircles ks w0).1.shapes.length = ks.dedup.length ∧
      (¬ ks.Nodup → (ShapeFactory.fresh.getCircles ks w0).1.shapes.length < ks.length) := by
  have hnd : ((ShapeFactory.fresh.getCircles ks w0).1.shapes.map Prod.fst).Nodup :=
    getCircles_keys_nodup ks (by simp [ShapeFactory.fresh])
  have hmem : ∀ x, x ∈ (ShapeFactory.fresh.getCircles ks w0).1.shapes.map Prod.fst ↔ x ∈ ks := by
    intro x
    rw [getCircles_keys_mem]
    simp [ShapeFactory.fresh]
  have hfin : ((ShapeFactory.fresh.getCircles ks w0).1.shapes.map Prod.fst).toFinset
      = ks.toFinset := by
    ext x
    simp only [List.mem_toFinset]
    exact hmem x
  have hlen : (ShapeFactory.fresh.getCircles ks w0).1.shapes.length = ks.dedup.length := by
    rw [← List.card_toFinset, ← hfin, List.toFinset_card_of_nodup hnd, List.length_map]
  refine ⟨hlen, fun hdup => ?_⟩
  rw [hlen]
  rcases Nat.lt_or_ge ks.dedup.length ks.length with h | h
  · exact h
  · have hle : ks.dedup.length ≤ ks.length := (List.dedup_sublist ks).length_le
    have heq : ks.dedup = ks := (List.dedup_sublist ks).eq_of_length (Nat.le_antisymm hle h)
    exact absurd (List.dedup_eq_self.1 heq) hdup

/-- C10: in a factory state reached by any run of `getCircle` calls, `getCircle k` keeps the
pointer mapped to every other key and every live object; when `k` already has an entry it
changes neither the factory nor the world; it writes nothing; and afterwards every entry
`(c, p)` of the map references a live `Circle` of colour `c`. -/
theorem getCircle_frame (w0 : World D) (ks0 : List String) (k : String) :
    let s := ShapeFactory.fresh.getCircles ks0 w0
    let r := s.1.getCircle k s.2
    (∀ k', k' ≠ k → mapFind r.2.1.shapes k' = mapFind s.1.shapes k') ∧
      (∀ p o, s.2.deref p = some o → r.2.2.deref p = some o) ∧
      (mapFind s.1.shapes k ≠ none → r.2 = s) ∧
      r.2.2.cout = s.2.cout ∧
      (∀ c p, (c, p) ∈ r.2.1.shapes → r.2.2.deref p = some (Obj.Circle c)) := by
  intro s r
  have hinv : CacheInv r.2.1 r.2.2 :=
    cacheInv_getCircle k (cacheInv_getCircles ks0 (cacheInv_fresh w0))
  have hnd : (r.2.1.shapes.map Prod.fst).Nodup :=
    getCircle_keys_nodup s.1 k s.2 (getCircles_keys_nodup ks0 (by simp [ShapeFactory.fresh]))
  refine ⟨fun k' hk' => getCircle_find_other s.1 k s.2 hk',
    fun p o h => getCircle_deref_keep s.1 k s.2 h, ?_, ?_,
    fun c p hmem => hinv c p (mapFind_of_mem hnd hmem)⟩
  · intro hsome
    cases hf : mapFind s.1.shapes k with
    | none => exact absurd hf hsome
    | some q =>
      have hr : r = (q, s.1, s.2) := getCircle_hit s.2 hf
      rw [hr]
  · cases hf : mapFind s.1.shapes k with
    | none =>
      have hr : r = _ := getCircle_miss s.2 hf
      rw [hr]
      rfl
    | some q =>
      have hr : r = (q, s.1, s.2) := getCircle_hit s.2 hf
      rw [hr]

/-- C4, counterexample: for the key "a\nb" the text written by `draw(1, 2)` on the instance
returned by `getCircle` has two line terminators, so it is two lines, not one. -/
theorem draw_newline_key_two_lines :
    (Shape.draw (ShapeFactory.fresh.getCircle "a\nb" (World.init : World Int)).1 1 2
      (ShapeFactory.fresh.getCircle "a\nb" (World.init : World Int)).2.2).map
        (fun w => (w.cout, lineCount w.cout)) = some ("Circle color: a\nb, at (1, 2)\n", 2) := by
  decide

/-- C4, amended: in a factory state reached by any run of `getCircle` calls, `draw(x, y)` on
the instance returned by `getCircle k` succeeds and appends exactly the text
"Circle color: k, at (x, y)" followed by one line terminator, changing nothing else; that text
is exactly one line whenever `k` contains no line terminator. -/
theorem draw_getCircle_text (w0 : World D) (ks0 : List String) (k : String) (x y : Int) :
    let s := ShapeFactory.fresh.getCircles ks0 w0
    let r := s.1.getCircle k s.2
    let line := "Circle color: " ++ k ++ ", at (" ++ toString x ++ ", " ++ toString y ++ ")\n"
    Shape.draw r.1 x y r.2.2 = some (r.2.2.write line) ∧
      ('\n' ∉ k.data → lineCount line = 1) := by
  intro s r line
  have hinv : CacheInv r.2.1 r.2.2 :=
    cacheInv_getCircle k (cacheInv_getCircles ks0 (cacheInv_fresh w0))
  have hd : r.2.2.deref r.1 = some (Obj.Circle k) :=
    hinv k r.1 (getCircle_find_self s.1 k s.2)
  constructor
  · simp only [Shape.draw, Circle.draw, hd, World.write, String.append_assoc, line]
  · intro hk
    simp only [line, lineCount_append, lineCount_eq_zero hk,
      lineCount_eq_zero (int_toString_no_newline x),
      lineCount_eq_zero (int_toString_no_newline y)]
    decide

/-- Instance of C4: `getCircle("Red")` on a fresh factory, then `draw(10, 20)`, writes the one
line "Circle color: Red, at (10, 20)", which contains "Red", "10" and "20". -/
theorem draw_getCircle_text_witness :
    (Shape.draw (ShapeFactory.fresh.getCircle "Red" (World.init : World Int)).1 10 20
        (ShapeFactory.fresh.getCircle "Red" (World.init : World Int)).2.2 =
      some ((ShapeFactory.fresh.getCircle "Red" (World.init : World Int)).2.2.write
        "Circle color: Red, at (10, 20)\n")) ∧
      lineCount "Circle color: Red, at (10, 20)\n" = 1 ∧
      "Red".data <:+: "Circle color: Red, at (10, 20)\n".data ∧
      "10".data <:+: "Circle color: Red, at (10, 20)\n".data ∧
      "20".data <:+: "Circle color: Red, at (10, 20)\n".data :=
  ⟨(draw_getCircle_text (World.init : World Int) [] "Red" 10 20).1,
    (draw_getCircle_text (World.init : World Int) [] "Red" 10 20).2 (by decide),
    by decide, by decide, by decide⟩

end Flyweight

/-! ## Adapter -/

section Adapter

variable {D : Type}

end Adapter

/-! ## Bridge -/

section Bridge

variable {D : Type}

end Bridge

/-! ## Facade -/

section Facade

variable {D : Type}

/-- C7: whatever the state and however many times `startComputer` ran before (`n` times), the
next call appends exactly the three lines "CPU started", "Memory loaded", "Hard Drive read", in
this order, and changes nothing else. -/
theorem startComputer_three_lines (c : ComputerFacade) (w : World D) (n : Nat) :
    c.startComputer (c.startComputer^[n] w) =
        (c.startComputer^[n] w).write "CPU started\nMemory loaded\nHard Drive read\n" ∧
      terminatedLines "CPU started\nMemory loaded\nHard Drive read\n" =
        ["CPU started", "Memory loaded", "Hard Drive read"] ∧
      lineCount "CPU started\nMemory loaded\nHard Drive read\n" = 3 := by
  have t : "CPU started\n" ++ ("Memory loaded\n" ++ "Hard Drive read\n") =
      "CPU started\nMemory loaded\nHard Drive read\n" := by decide
  refine ⟨?_, by decide, by decide⟩
  simp only [ComputerFacade.startComputer, CPU.start, Memory.load, HardDrive.read, World.write,
    String.append_assoc, t]

end Facade

/-! ## The reference run -/

section Main

variable {D : Type}

set_option maxRecDepth 100000 in
/-- C8, counterexample: the text written by `main` is not just the four sections (it goes on
after the Facade lines, the last line being the prompt "Press any key to exit..."), and the
program also runs the command "pause" through `system`. -/
theorem main_not_only_four_sections :
    (main intDoubles World.init).map (fun r => r.2.cout) ≠
        some ("==== FLYWEIGHT ====\nCircle color: Red, at (10, 20)\n" ++
          "Circle color: Red, at (30, 40)\n" ++
          "\n==== ADAPTER ====\nOld printer is printing...\n" ++
          "\n==== BRIDGE ====\nAPI1.circle at (5, 10) radius: 15\n" ++
          "API2.circle at (7, 14) radius: 21\n" ++
          "\n==== FACADE ====\nCPU started\nMemory loaded\nHard Drive read\n") ∧
      (main intDoubles World.init).map (fun r => (terminatedLines r.2.cout).getLast?) =
        some (some "Press any key to exit...") ∧
      (main intDoubles World.init).map (fun r => r.2.sys) ≠ some [] := by
  decide

/-- C8, amended: `main` runs to its end and returns 0; it writes, in this order, the Flyweight
header and the two render lines; a blank line, the Adapter header and the legacy line; a blank
line, the Bridge header and one line per shape (API1, then API2); a blank line, the Facade
header and the three subsystem lines; a blank line and the prompt "Press any key to exit...".
Its only other external effect is one call of `system`, with the command "pause", made after
all of that text was written; nothing is written after the call. -/
theorem main_output (fmt : DoubleOps D) :
    let text :=
      "==== FLYWEIGHT ====\n" ++
        "Circle color: Red, at (10, 20)\n" ++
        "Circle color: Red, at (30, 40)\n" ++
        "\n==== ADAPTER ====\n" ++
        "Old printer is printing...\n" ++
        "\n==== BRIDGE ====\n" ++
        ("API1.circle at (" ++ fmt.toText (fmt.ofInt 5) ++ ", " ++ fmt.toText (fmt.ofInt 10) ++
          ") radius: " ++ fmt.toText (fmt.ofInt 15) ++ "\n") ++
        ("API2.circle at (" ++ fmt.toText (fmt.ofInt 7) ++ ", " ++ fmt.toText (fmt.ofInt 14) ++
          ") radius: " ++ fmt.toText (fmt.ofInt 21) ++ "\n") ++
        "\n==== FACADE ====\n" ++
        "CPU started\n" ++
        "Memory loaded\n" ++
        "Hard Drive read\n" ++
        "\nPress any key to exit...\n"
    (main fmt World.init).map (fun r => (r.1, r.2.cout, r.2.sys)) =
      some (0, text, [{ cmd := "pause", coutBefore := text }]) := by
  have pre : "" ++ "==== FLYWEIGHT ====\n" ++ "Circle color: " ++ "Red" ++ ", at (" ++
      toString (10 : Int) ++ ", " ++ toString (20 : Int) ++ ")\n" ++ "Circle color: " ++ "Red" ++
      ", at (" ++ toString (30 : Int) ++ ", " ++ toString (40 : Int) ++ ")\n" ++
      "\n==== ADAPTER ====\n" ++ "Old printer is printing...\n" ++ "\n==== BRIDGE ====\n" =
      "==== FLYWEIGHT ====\n" ++ "Circle color: Red, at (10, 20)\n" ++
      "Circle color: Red, at (30, 40)\n" ++ "\n==== ADAPTER ====\n" ++
      "Old printer is printing...\n" ++ "\n==== BRIDGE ====\n" := by
    decide
  simp only [main, ShapeFactory.fresh, ShapeFactory.getCircle, ShapeFactory.destroy, mapFind,
    mapSet, mapIndex, World.opNew, World.init, World.write, World.system, World.opDelete,
    World.deref, Shape.draw, Circle.draw, IPrinter.print, PrinterAdapter.print,
    OldPrinter.oldPrint, ShapeBridge.draw, CircleShape.draw, DrawingAPI.drawCircle,
    DrawingAPI1.drawCircle, DrawingAPI2.drawCircle, ComputerFacade.startComputer, CPU.start,
    Memory.load, HardDrive.read, if_true, if_false, List.length_nil, List.nil_append,
    List.length_cons, List.getElem?_cons_zero, List.getElem?_cons_succ, Option.join,
    Option.bind_eq_bind, Option.some_bind, Option.pure_def, List.cons_append, Nat.zero_add,
    Nat.reduceAdd, List.set_cons_zero, List.set_cons_succ, List.foldlM_cons, List.foldlM_nil,
    reduceCtorEq, id_eq, Option.map_some']
  rw [pre]
  simp only [String.append_assoc]

/-- Instance of C8: the lines of the reference run, doubles printed in decimal; the one
`system` call is "pause", made when all seventeen lines had been written. -/
theorem main_output_witness :
    (main intDoubles World.init).map
        (fun r => (r.1, terminatedLines r.2.cout,
          r.2.sys.map (fun c => (c.cmd, (terminatedLines c.coutBefore).length)))) =
      some (0,
        ["==== FLYWEIGHT ====", "Circle color: Red, at (10, 20)",
          "Circle color: Red, at (30, 40)", "", "==== ADAPTER ====",
          "Old printer is printing...", "", "==== BRIDGE ====",
          "API1.circle at (5, 10) radius: 15", "API2.circle at (7, 14) radius: 21", "",
          "==== FACADE ====", "CPU started", "Memory loaded", "Hard Drive read", "",
          "Press any key to exit..."],
        [("pause", 17)]) := by
  have h := main_output intDoubles
  cases hm : main intDoubles World.init with
  | none =>
    rw [hm] at h
    exact Option.noConfusion h
  | some r =>
    rw [hm] at h
    simp only [Option.map_some', Option.some.injEq, Prod.mk.injEq] at h ⊢
    obtain ⟨h1, h2, h3⟩ := h
    refine ⟨h1, ?_, ?_⟩
    · rw [h2]
      decide
    · rw [h3]
      decide

end Main

/-! ## Totality -/

section Totality

variable {D : Type}

/-- C9, counterexample: `draw()` on a `CircleShape` constructed with the null `DrawingAPI`
pointer has no defined result: `drawingAPI->drawCircle(...)` is a call through `nullptr`. -/
theorem draw_null_backend_undefined :
    ShapeBridge.draw intDoubles
        ((World.init : World Int).opNew (Obj.CircleShape 5 10 15 Ptr.null)).1
        ((World.init : World Int).opNew (Obj.CircleShape 5 10 15 Ptr.null)).2 = none := by
  rfl

/-- C9, amended: each operation completes on valid objects, each in any world of its own.
`getCircle` accepts every key in every factory state reached by `getCircle` calls and returns
a pointer to a live `Circle`, on which `draw(x, y)` succeeds for all `x, y`. `Circle::draw`
succeeds on every pointer to a live `Circle`. `print()` succeeds on every live `PrinterAdapter`
whose stored pointer references a live `OldPrinter`, in particular on one just constructed
around such a pointer. `draw()` succeeds on every live `CircleShape` whose stored pointer
references a live `DrawingAPI1` or `DrawingAPI2`, in particular on one just constructed around
such a pointer, for all coordinates. `startComputer` completes in every world, with the three
subsystem lines written and nothing else changed. -/
theorem operations_total_on_live_objects (fmt : DoubleOps D) :
    (∀ (w0 : World D) (ks0 : List String) (k : String) (x y : Int),
        ((ShapeFactory.fresh.getCircles ks0 w0).1.getCircle k
            (ShapeFactory.fresh.getCircles ks0 w0).2).2.2.deref
          ((ShapeFactory.fresh.getCircles ks0 w0).1.getCircle k
            (ShapeFactory.fresh.getCircles ks0 w0).2).1 = some (Obj.Circle k) ∧
        (Shape.draw
          ((ShapeFactory.fresh.getCircles ks0 w0).1.getCircle k
            (ShapeFactory.fresh.getCircles ks0 w0).2).1 x y
          ((ShapeFactory.fresh.getCircles ks0 w0).1.getCircle k
            (ShapeFactory.fresh.getCircles ks0 w0).2).2.2).isSome) ∧
      (∀ (w : World D) (pc : Ptr) (color : String) (x y : Int),
        w.deref pc = some (Obj.Circle color) → (Circle.draw pc x y w).isSome) ∧
      (∀ (w : World D) (a op : Ptr),
        w.deref a = some (Obj.PrinterAdapter op) → w.deref op = some Obj.OldPrinter →
          (IPrinter.print a w).isSome) ∧
      (∀ (w : World D) (op : Ptr), w.deref op = some Obj.OldPrinter →
        (IPrinter.print (w.opNew (Obj.PrinterAdapter op)).1
          (w.opNew (Obj.PrinterAdapter op)).2).isSome) ∧
      (∀ (w : World D) (c api : Ptr) (dx dy dr : D),
        w.deref c = some (Obj.CircleShape dx dy dr api) →
          (w.deref api = some Obj.DrawingAPI1 ∨ w.deref api = some Obj.DrawingAPI2) →
          (ShapeBridge.draw fmt c w).isSome) ∧
      (∀ (w : World D) (api : Ptr) (dx dy dr : D),
        (w.deref api = some Obj.DrawingAPI1 ∨ w.deref api = some Obj.DrawingAPI2) →
          (ShapeBridge.draw fmt (w.opNew (Obj.CircleShape dx dy dr api)).1
            (w.opNew (Obj.CircleShape dx dy dr api)).2).isSome) ∧
      (∀ (w : World D) (c : ComputerFacade),
        c.startComputer w = ((w.write "CPU started\n").write "Memory loaded\n").write
          "Hard Drive read\n") := by
  have hprint : ∀ (w : World D) (a op : Ptr),
      w.deref a = some (Obj.PrinterAdapter op) → w.deref op = some Obj.OldPrinter →
        (IPrinter.print a w).isSome := by
    intro w a op ha hop
    simp only [IPrinter.print, PrinterAdapter.print, ha, OldPrinter.oldPrint, hop,
      Option.isSome_some]
  have hdraw : ∀ (w : World D) (c api : Ptr) (dx dy dr : D),
      w.deref c = some (Obj.CircleShape dx dy dr api) →
        (w.deref api = some Obj.DrawingAPI1 ∨ w.deref api = some Obj.DrawingAPI2) →
        (ShapeBridge.draw fmt c w).isSome := by
    intro w c api dx dy dr hc hapi
    rcases hapi with h | h <;>
      simp only [ShapeBridge.draw, CircleShape.draw, hc, DrawingAPI.drawCircle, h,
        Option.isSome_some]
  refine ⟨?_, ?_, hprint, ?_, hdraw, ?_, ?_⟩
  · intro w0 ks0 k x y
    have hinv := cacheInv_getCircle k (cacheInv_getCircles ks0 (cacheInv_fresh w0))
    have hd := hinv k _ (getCircle_find_self (ShapeFactory.fresh.getCircles ks0 w0).1 k
      (ShapeFactory.fresh.getCircles ks0 w0).2)
    refine ⟨hd, ?_⟩
    simp only [Shape.draw, Circle.draw, hd, Option.isSome_some]
  · intro w pc color x y hc
    simp only [Circle.draw, hc, Option.isSome_some]
  · intro w op hop
    exact hprint _ _ op (deref_opNew_new w _) (deref_opNew_old _ hop)
  · intro w api dx dy dr hapi
    refine hdraw _ _ api dx dy dr (deref_opNew_new w _) ?_
    rcases hapi with h | h
    · exact Or.inl (deref_opNew_old _ h)
    · exact Or.inr (deref_opNew_old _ h)
  · intro w c
    rfl

/-- Instance of C9, each operation in a world holding only what it needs: `draw` on the result
of `getCircle("Red")` on a fresh factory; `print()` on an adapter built in a heap that holds
just an `OldPrinter`; `draw()` on a shape built in a heap that holds just a `DrawingAPI2`;
`startComputer` at program start. -/
theorem operations_total_on_live_objects_witness :
    (Shape.draw (ShapeFactory.fresh.getCircle "Red" (World.init : World Int)).1 10 20
        (ShapeFactory.fresh.getCircle "Red" (World.init : World Int)).2.2).isSome ∧
      ((World.init : World Int).opNew Obj.OldPrinter).2.deref (Ptr.addr 0) =
        some Obj.OldPrinter ∧
      (IPrinter.print (Ptr.addr 1)
        ({ cout := "", heap := [some Obj.OldPrinter, some (Obj.PrinterAdapter (Ptr.addr 0))],
            sys := [] } : World Int)).isSome ∧
      ((World.init : World Int).opNew Obj.DrawingAPI2).2.deref (Ptr.addr 0) =
        some Obj.DrawingAPI2 ∧
      (ShapeBridge.draw intDoubles (Ptr.addr 1)
        ({ cout := "", heap := [some Obj.DrawingAPI2,
            some (Obj.CircleShape 7 14 21 (Ptr.addr 0))], sys := [] } : World Int)).isSome ∧
      (ComputerFacade.startComputer { cpu := {}, memory := {}, hardDrive := {} }
        (World.init : World Int)).cout = "CPU started\nMemory loaded\nHard Drive read\n" :=
  ⟨((operations_total_on_live_objects intDoubles).1 World.init [] "Red" 10 20).2,
    by decide,
    (operations_total_on_live_objects intDoubles).2.2.2.1
      ((World.init : World Int).opNew Obj.OldPrinter).2 (Ptr.addr 0) (by decide),
    by decide,
    (operations_total_on_live_objects intDoubles).2.2.2.2.2.1
      ((World.init : World Int).opNew Obj.DrawingAPI2).2 (Ptr.addr 0) 7 14 21
      (Or.inr (by decide)),
    (congrArg World.cout ((operations_total_on_live_objects intDoubles).2.2.2.2.2.2
      (World.init : World Int) { cpu := {}, memory := {}, hardDrive := {} })).trans
      (by decide)⟩

end Totality

end Lb4
